import Mathlib

/-!
Verification of `scripts/resize-logo.py` (the Lyre logo/favicon deriver).

The script loads one source image, applies two transforms
(`resize_maintaining_aspect`, `resize_to_square`) and writes a fixed list of
output files to two directories.  We embed the script shallowly:

* an image is its width, height, mode string and a pixel function;
* the imaging library's resampling kernel (Lanczos) is external code, so the
  development is parameterized by it (`Lib`); no claim depends on resampled
  pixel values, only on dimensions, branch selection, offsets and the
  untouched transparent canvas;
* Python's float divisions are embedded with exact arithmetic: for the
  nonnegative quantities involved, `int(a / b)` is floor division `a / b` on
  `Nat`, and `w / h > 1` is `w > h`;
* the fallible division by a zero height is embedded by making both
  transforms return `Option Image` (`none` = the unhandled fault);
* `main` is embedded as a pure function from an environment (is the source
  image present and decodable? does the secondary `src/app` directory exist?)
  to the ordered trace of directory creations and file saves it performs,
  plus a success flag.
-/

namespace Lyre

/-- An RGBA pixel; each band is a `Nat` (0–255 in the library's format). -/
structure Pixel where
  r : Nat
  g : Nat
  b : Nat
  a : Nat
deriving DecidableEq

/-- The fully transparent zero pixel `(0, 0, 0, 0)`. -/
def Pixel.clear : Pixel := ⟨0, 0, 0, 0⟩

/-- A raster image: width, height, mode string ("RGBA", ...) and pixel data
as a function of coordinates (meaningful inside the bounds). -/
structure Image where
  width : Nat
  height : Nat
  mode : String
  px : Nat → Nat → Pixel

/-- Modelled from the spec: the imaging library's resampling kernel
(`Image.Resampling.LANCZOS`), external library code.  Given the source
image, the target width and height, and a target coordinate, it produces
the resampled pixel.  The development is parameterized by it; no claim
depends on its values. -/
structure Lib where
  lanczos : Image → Nat → Nat → Nat → Nat → Pixel

/-- Modelled from the spec: `img.resize((w, h), LANCZOS)` returns an image of
exactly the requested size, in the source's mode, with resampled content. -/
def Image.resize (L : Lib) (img : Image) (w h : Nat) : Image :=
  ⟨w, h, img.mode, fun i j => L.lanczos img w h i j⟩

/-- Modelled from the spec: `img.convert("RGBA")` changes the mode,
keeping the dimensions (pixel representation change not modelled). -/
def Image.convert (img : Image) (m : String) : Image :=
  ⟨img.width, img.height, m, img.px⟩

/-- Modelled from the spec: `Image.new(mode, (w, h), color)` allocates a
canvas filled with the given color. -/
def Image.new (m : String) (w h : Nat) (c : Pixel) : Image :=
  ⟨w, h, m, fun _ _ => c⟩

/-- Modelled from the spec: the library's per-band blend used by a masked
paste, mixing destination and source by the mask's alpha band. -/
def blendPx (dst src : Pixel) : Pixel :=
  ⟨(dst.r * (255 - src.a) + src.r * src.a) / 255,
   (dst.g * (255 - src.a) + src.g * src.a) / 255,
   (dst.b * (255 - src.a) + src.b * src.a) / 255,
   (dst.a * (255 - src.a) + src.a * src.a) / 255⟩

/-- Modelled from the spec: `canvas.paste(im, (x, y), mask)`.  Inside the
pasted box the source is copied (blended through its own alpha when the
image is used as its own mask); outside the box the canvas is untouched. -/
def Image.paste (canvas im : Image) (x y : Nat) (useMask : Bool) : Image :=
  ⟨canvas.width, canvas.height, canvas.mode, fun i j =>
    if x ≤ i ∧ i < x + im.width ∧ y ≤ j ∧ j < y + im.height then
      (if useMask then blendPx (canvas.px i j) (im.px (i - x) (j - y))
       else im.px (i - x) (j - y))
    else canvas.px i j⟩

/-- `resize_maintaining_aspect(img, height)`:
`aspect_ratio = img.width / img.height` (faults when the height is zero),
`new_width = int(height * aspect_ratio)`, then resize to
`(new_width, height)`.  With exact arithmetic the truncated width is the
floor `height * img.width / img.height`. -/
def resize_maintaining_aspect (L : Lib) (img : Image) (height : Nat) :
    Option Image :=
  if img.height = 0 then none
  else some (Image.resize L img (height * img.width / img.height) height)

/-- The scale-fit dimensions of `resize_to_square`:
`if aspect_ratio > 1` (exactly: `img.width > img.height`) fit the width to
`size` and derive the height, otherwise (ties included) fit the height to
`size` and derive the width; derived dimensions truncate as in the code. -/
def square_fit (img : Image) (size : Nat) : Nat × Nat :=
  if img.width > img.height then (size, size * img.height / img.width)
  else (size * img.width / img.height, size)

/-- `resize_to_square(img, size)`: computes `aspect_ratio` (faults when the
height is zero), scale-fits per `square_fit`, resizes, allocates a
transparent `size × size` RGBA canvas, and pastes the resized image at
`((size - new_width) // 2, (size - new_height) // 2)`, masked by itself
when it is RGBA. -/
def resize_to_square (L : Lib) (img : Image) (size : Nat) : Option Image :=
  if img.height = 0 then none
  else
    let fit := square_fit img size
    let resized := Image.resize L img fit.1 fit.2
    let square := Image.new "RGBA" size size Pixel.clear
    some (Image.paste square resized ((size - fit.1) / 2) ((size - fit.2) / 2)
      (resized.mode == "RGBA"))

/-- The filesystem-relevant environment of a run: whether `logo.png` is
present and decodable (and its content), and whether the secondary
framework-reserved directory `src/app` exists.  `main` creates the primary
`public` directory itself; `src/app` is never created. -/
structure Env where
  logo : Option Image
  appDirExists : Bool

/-- The observable outcome of a run: the directories created, the ordered
trace of file saves (path and image), and whether the run completed. -/
structure RunResult where
  dirsCreated : List String
  saves : List (String × Image)
  ok : Bool

/-- `main()`: `public.mkdir(exist_ok=True)`; load `logo.png` (abort if
missing) and convert to RGBA; save `logo-24.png`, `logo-80.png` (aspect
resizes at heights 24 and 80); compute the 16/32/180 squares and save
`favicon-16.png`, `favicon-32.png`, `apple-touch-icon.png`; recompute the
32 square and save `favicon.ico`; then save `src/app/favicon.ico`,
`src/app/icon.png`, `src/app/apple-icon.png` (each `src/app` save faults
when that directory is absent).  Any fault aborts with the saves already
performed. -/
def main (L : Lib) (env : Env) : RunResult :=
  match env.logo with
  | none => ⟨["public"], [], false⟩
  | some raw =>
    let logo := Image.convert raw "RGBA"
    match resize_maintaining_aspect L logo 24 with
    | none => ⟨["public"], [], false⟩
    | some sidebar =>
      let s1 := [("public/logo-24.png", sidebar)]
      match resize_maintaining_aspect L logo 80 with
      | none => ⟨["public"], s1, false⟩
      | some login =>
        let s2 := s1 ++ [("public/logo-80.png", login)]
        match resize_to_square L logo 16 with
        | none => ⟨["public"], s2, false⟩
        | some favicon_16 =>
          match resize_to_square L logo 32 with
          | none => ⟨["public"], s2, false⟩
          | some favicon_32 =>
            match resize_to_square L logo 180 with
            | none => ⟨["public"], s2, false⟩
            | some apple_touch =>
              let s5 := s2 ++ [("public/favicon-16.png", favicon_16),
                ("public/favicon-32.png", favicon_32),
                ("public/apple-touch-icon.png", apple_touch)]
              match resize_to_square L logo 32 with
              | none => ⟨["public"], s5, false⟩
              | some favicon_32_for_ico =>
                let s6 := s5 ++ [("public/favicon.ico", favicon_32_for_ico)]
                if env.appDirExists then
                  let s7 := s6 ++ [("src/app/favicon.ico", favicon_32_for_ico)]
                  match resize_to_square L logo 32 with
                  | none => ⟨["public"], s7, false⟩
                  | some icon =>
                    let s8 := s7 ++ [("src/app/icon.png", icon)]
                    match resize_to_square L logo 180 with
                    | none => ⟨["public"], s8, false⟩
                    | some apple_icon =>
                      ⟨["public"],
                        s8 ++ [("src/app/apple-icon.png", apple_icon)], true⟩
                else ⟨["public"], s6, false⟩

/-- A concrete trivial resampling kernel, used to instantiate `Lib` in
witnesses (claims do not depend on resampled pixel values). -/
def trivKernel : Lib := ⟨fun _ _ _ _ _ => Pixel.clear⟩

/-- A concrete blank RGBA image of the given dimensions, for witnesses. -/
def sampleImg (w h : Nat) : Image := ⟨w, h, "RGBA", fun _ _ => Pixel.clear⟩

/-- Claim C1: for positive source dimensions and a positive target height
`H`, `resize_maintaining_aspect` returns an image of height exactly `H`
and width `H * W₀ / H₀` — "round" being, per the spec's own gloss, integer
truncation, i.e. floor division for these nonnegative quantities. -/
theorem C1_aspect_resize_dims (L : Lib) (img : Image) (H : Nat)
    (hw : 0 < img.width) (hh : 0 < img.height) (hH : 0 < H) :
    ∃ out, resize_maintaining_aspect L img H = some out ∧
      out.height = H ∧ out.width = H * img.width / img.height := by
  refine ⟨Image.resize L img (H * img.width / img.height) H, ?_, rfl, rfl⟩
  unfold resize_maintaining_aspect
  rw [if_neg hh.ne']

/-- Witness for C1 at the spec's scenario: a 512×256 source at target
height 24 yields exactly 48×24. -/
theorem C1_witness :
    (∃ out, resize_maintaining_aspect trivKernel (sampleImg 512 256) 24
        = some out ∧ out.height = 24 ∧
        out.width = 24 * (sampleImg 512 256).width / (sampleImg 512 256).height)
    ∧ 24 * (sampleImg 512 256).width / (sampleImg 512 256).height = 48 :=
  ⟨C1_aspect_resize_dims trivKernel (sampleImg 512 256) 24 (by decide)
      (by decide) (by decide), by decide⟩

/-- Claim C2: for positive source dimensions and a positive target size
`S`, `resize_to_square` returns an `S × S` RGBA image built by pasting the
scale-fitted resize (width-fit when width > height, otherwise — ties
included — height-fit) at offset `((S - fw) / 2, (S - fh) / 2)` onto a
fully transparent canvas, every pixel outside the pasted box being the
clear `(0,0,0,0)` pixel. -/
theorem C2_square_resize_dims (L : Lib) (img : Image) (S : Nat)
    (hw : 0 < img.width) (hh : 0 < img.height) (hS : 0 < S) :
    ∃ out, resize_to_square L img S = some out ∧
      out.width = S ∧ out.height = S ∧ out.mode = "RGBA" ∧
      (img.height < img.width →
        square_fit img S = (S, S * img.height / img.width)) ∧
      (img.width ≤ img.height →
        square_fit img S = (S * img.width / img.height, S)) ∧
      out = Image.paste (Image.new "RGBA" S S Pixel.clear)
        (Image.resize L img (square_fit img S).1 (square_fit img S).2)
        ((S - (square_fit img S).1) / 2) ((S - (square_fit img S).2) / 2)
        (img.mode == "RGBA") ∧
      (∀ i j,
        (i < (S - (square_fit img S).1) / 2 ∨
         (S - (square_fit img S).1) / 2 + (square_fit img S).1 ≤ i ∨
         j < (S - (square_fit img S).2) / 2 ∨
         (S - (square_fit img S).2) / 2 + (square_fit img S).2 ≤ j) →
        out.px i j = Pixel.clear) := by
  refine ⟨Image.paste (Image.new "RGBA" S S Pixel.clear)
      (Image.resize L img (square_fit img S).1 (square_fit img S).2)
      ((S - (square_fit img S).1) / 2) ((S - (square_fit img S).2) / 2)
      (img.mode == "RGBA"), ?_, rfl, rfl, rfl, ?_, ?_, rfl, ?_⟩
  · unfold resize_to_square
    rw [if_neg hh.ne']
    rfl
  · intro h
    unfold square_fit
    rw [if_pos h]
  · intro h
    unfold square_fit
    rw [if_neg (not_lt.mpr h)]
  · intro i j hout
    show (if (S - (square_fit img S).1) / 2 ≤ i ∧
        i < (S - (square_fit img S).1) / 2
          + (Image.resize L img (square_fit img S).1 (square_fit img S).2).width ∧
        (S - (square_fit img S).2) / 2 ≤ j ∧
        j < (S - (square_fit img S).2) / 2
          + (Image.resize L img (square_fit img S).1 (square_fit img S).2).height
      then _ else _) = Pixel.clear
    rw [if_neg]
    · rfl
    · show ¬ ((S - (square_fit img S).1) / 2 ≤ i ∧
        i < (S - (square_fit img S).1) / 2 + (square_fit img S).1 ∧
        (S - (square_fit img S).2) / 2 ≤ j ∧
        j < (S - (square_fit img S).2) / 2 + (square_fit img S).2)
      omega

/-- Witness for C2 at the spec's scenario: a square 100×100 source at
target size 32 hits the height-fit branch with fitted dimensions (32, 32)
and zero paste offsets, i.e. zero transparent margin. -/
theorem C2_witness :
    (∃ out, resize_to_square trivKernel (sampleImg 100 100) 32 = some out ∧
      out.width = 32 ∧ out.height = 32 ∧ out.mode = "RGBA" ∧
      ((sampleImg 100 100).height < (sampleImg 100 100).width →
        square_fit (sampleImg 100 100) 32
          = (32, 32 * (sampleImg 100 100).height / (sampleImg 100 100).width)) ∧
      ((sampleImg 100 100).width ≤ (sampleImg 100 100).height →
        square_fit (sampleImg 100 100) 32
          = (32 * (sampleImg 100 100).width / (sampleImg 100 100).height, 32)) ∧
      out = Image.paste (Image.new "RGBA" 32 32 Pixel.clear)
        (Image.resize trivKernel (sampleImg 100 100)
          (square_fit (sampleImg 100 100) 32).1
          (square_fit (sampleImg 100 100) 32).2)
        ((32 - (square_fit (sampleImg 100 100) 32).1) / 2)
        ((32 - (square_fit (sampleImg 100 100) 32).2) / 2)
        ((sampleImg 100 100).mode == "RGBA") ∧
      (∀ i j,
        (i < (32 - (square_fit (sampleImg 100 100) 32).1) / 2 ∨
         (32 - (square_fit (sampleImg 100 100) 32).1) / 2
           + (square_fit (sampleImg 100 100) 32).1 ≤ i ∨
         j < (32 - (square_fit (sampleImg 100 100) 32).2) / 2 ∨
         (32 - (square_fit (sampleImg 100 100) 32).2) / 2
           + (square_fit (sampleImg 100 100) 32).2 ≤ j) →
        out.px i j = Pixel.clear))
    ∧ square_fit (sampleImg 100 100) 32 = (32, 32)
    ∧ (32 - (square_fit (sampleImg 100 100) 32).1) / 2 = 0
    ∧ (32 - (square_fit (sampleImg 100 100) 32).2) / 2 = 0 :=
  ⟨C2_square_resize_dims trivKernel (sampleImg 100 100) 32 (by decide)
      (by decide) (by decide), by decide, by decide, by decide⟩

/-- Counterexample to Claim C3 as stated: for the spec's own 512×256
landscape source at target height 24, the aspect-preserving output is
48×24, whose larger dimension 48 exceeds the requested target 24. -/
theorem C3_counterexample :
    (resize_maintaining_aspect trivKernel (sampleImg 512 256) 24).map
      (fun o => (o.width, o.height)) = some (48, 24)
    ∧ ¬ (max 48 24 ≤ 24) := by
  constructor
  · decide
  · decide

/-- Claim C3 (amended): square outputs have width = height = the requested
size, hence their larger dimension never exceeds the target; for
aspect-preserving outputs only the height is exactly the requested height
(the width may exceed it, so the larger-dimension bound does not hold for
them). -/
theorem C3_amended_invariant (L : Lib) (img : Image) (H S : Nat)
    (hh : 0 < img.height) (hH : 0 < H) (hS : 0 < S) :
    (∀ out, resize_maintaining_aspect L img H = some out → out.height = H) ∧
    (∀ out, resize_to_square L img S = some out →
      out.width = S ∧ out.height = S ∧ max out.width out.height ≤ S) := by
  constructor
  · intro out hout
    unfold resize_maintaining_aspect at hout
    rw [if_neg hh.ne'] at hout
    cases hout
    rfl
  · intro out hout
    unfold resize_to_square at hout
    rw [if_neg hh.ne'] at hout
    cases hout
    exact ⟨rfl, rfl, by simp [Image.paste, Image.new]⟩

/-- Witness for the amended C3 at a concrete landscape source. -/
theorem C3_amended_witness :
    (∀ out, resize_maintaining_aspect trivKernel (sampleImg 512 256) 24
      = some out → out.height = 24) ∧
    (∀ out, resize_to_square trivKernel (sampleImg 512 256) 32 = some out →
      out.width = 32 ∧ out.height = 32 ∧ max out.width out.height ≤ 32) :=
  C3_amended_invariant trivKernel (sampleImg 512 256) 24 32 (by decide)
    (by decide) (by decide)

/-- Claim C4: when the source image is missing (or undecodable) the run
aborts before any output file is written: the save trace is empty (only
the `public` directory creation, which precedes the load, happened). -/
theorem C4_missing_source_aborts (L : Lib) (env : Env)
    (h : env.logo = none) :
    (main L env).saves = [] ∧ (main L env).ok = false := by
  unfold main
  rw [h]
  exact ⟨rfl, rfl⟩

/-- Witness for C4: a run with no source image saves nothing and fails. -/
theorem C4_witness :
    (main trivKernel ⟨none, true⟩).saves = []
    ∧ (main trivKernel ⟨none, true⟩).ok = false :=
  C4_missing_source_aborts trivKernel ⟨none, true⟩ rfl

/-- Helper: a scale-fit derived dimension never exceeds the target:
`S * a / b ≤ S` when `a ≤ b` and `b` is positive. -/
theorem fit_le_target (S a b : Nat) (hab : a ≤ b) (hb : 0 < b) :
    S * a / b ≤ S := by
  have h2 : S * a ≤ S * b := Nat.mul_le_mul_left S hab
  have h3 : S * a / b ≤ S * b / b := Nat.div_le_div_right h2
  have h4 : S * b / b = S := by
    rw [Nat.mul_div_assoc S (dvd_refl b), Nat.div_self hb, Nat.mul_one]
  omega

/-- Claim C5: a complete run (source present, well-formed, secondary
directory present) saves exactly nine files, in order: the two
aspect-resized logos, the 16/32/180 squares, the public `.ico`, then the
three files of the secondary `src/app` directory. -/
theorem C5_nine_files (L : Lib) (env : Env) (img : Image)
    (hl : env.logo = some img) (hh : 0 < img.height)
    (happ : env.appDirExists = true) :
    (main L env).saves.map Prod.fst =
      ["public/logo-24.png", "public/logo-80.png", "public/favicon-16.png",
       "public/favicon-32.png", "public/apple-touch-icon.png",
       "public/favicon.ico", "src/app/favicon.ico", "src/app/icon.png",
       "src/app/apple-icon.png"] ∧
    (main L env).ok = true := by
  constructor
  · simp [main, hl, happ, resize_maintaining_aspect, resize_to_square,
      Image.convert, hh.ne']
  · simp [main, hl, happ, resize_maintaining_aspect, resize_to_square,
      Image.convert, hh.ne']

/-- Witness for C5 on a concrete 512×256 source with the secondary
directory present. -/
theorem C5_witness :
    (main trivKernel ⟨some (sampleImg 512 256), true⟩).saves.map Prod.fst =
      ["public/logo-24.png", "public/logo-80.png", "public/favicon-16.png",
       "public/favicon-32.png", "public/apple-touch-icon.png",
       "public/favicon.ico", "src/app/favicon.ico", "src/app/icon.png",
       "src/app/apple-icon.png"] ∧
    (main trivKernel ⟨some (sampleImg 512 256), true⟩).ok = true :=
  C5_nine_files trivKernel ⟨some (sampleImg 512 256), true⟩ (sampleImg 512 256)
    rfl (by decide) rfl

/-- Claim C6: two-run determinism.  The run is a pure function of the
source image and the filesystem environment: two runs over environments
agreeing on the source image and on the secondary directory's presence
produce identical traces (hence byte-for-byte identical files, the
resampling kernel and encoders being deterministic). -/
theorem C6_two_run_determinism (L : Lib) (e1 e2 : Env)
    (hl : e1.logo = e2.logo) (ha : e1.appDirExists = e2.appDirExists) :
    main L e1 = main L e2 := by
  cases e1
  cases e2
  cases hl
  cases ha
  rfl

/-- Witness for C6 at a concrete environment. -/
theorem C6_witness :
    main trivKernel ⟨some (sampleImg 512 256), true⟩
      = main trivKernel ⟨some (sampleImg 512 256), true⟩ :=
  C6_two_run_determinism trivKernel ⟨some (sampleImg 512 256), true⟩
    ⟨some (sampleImg 512 256), true⟩ rfl rfl

/-- Claim C7: centering symmetry.  For a non-square source and positive
target size `S`, on the padded axis the fitted dimension is at most `S`,
and with offset `o = (S - fitted) / 2` the opposite margin
`S - fitted - o` differs from `o` by at most one pixel. -/
theorem C7_margin_symmetry (img : Image) (S : Nat)
    (hw : 0 < img.width) (hh : 0 < img.height)
    (hsq : img.width ≠ img.height) (hS : 0 < S) :
    ∀ fitted o : Nat,
      fitted = (if img.width > img.height then (square_fit img S).2
        else (square_fit img S).1) →
      o = (S - fitted) / 2 →
      fitted ≤ S ∧ (((S : ℤ) - fitted - o) - o).natAbs ≤ 1 := by
  intro fitted o hf ho
  have hfit : fitted ≤ S := by
    by_cases hgt : img.width > img.height
    · rw [hf, if_pos hgt]
      unfold square_fit
      rw [if_pos hgt]
      exact fit_le_target S img.height img.width (le_of_lt hgt) hw
    · rw [hf, if_neg hgt]
      unfold square_fit
      rw [if_neg hgt]
      exact fit_le_target S img.width img.height (le_of_not_lt hgt) hh
  refine ⟨hfit, ?_⟩
  omega

/-- Witness for C7: a 512×256 landscape source at size 32 pads the
vertical axis with fitted height 16, offset 8, margins 8 and 8. -/
theorem C7_witness :
    (16 : Nat) ≤ 32 ∧ (((32 : ℤ) - (16 : Nat) - (8 : Nat)) - (8 : Nat)).natAbs ≤ 1 :=
  C7_margin_symmetry (sampleImg 512 256) 32 (by decide) (by decide)
    (by decide) (by decide) 16 8 (by decide) (by decide)

/-- Claim C8: a zero-height source makes the width/height division fault
in both transforms — embedded as the `none` (unhandled-fault) result — and
the fault propagates through `main`, aborting the run with nothing
saved. -/
theorem C8_zero_height_faults (L : Lib) (img : Image) (H S : Nat) (b : Bool)
    (h : img.height = 0) :
    resize_maintaining_aspect L img H = none ∧
    resize_to_square L img S = none ∧
    main L ⟨some img, b⟩ = ⟨["public"], [], false⟩ := by
  refine ⟨?_, ?_, ?_⟩
  · unfold resize_maintaining_aspect
    rw [if_pos h]
  · unfold resize_to_square
    rw [if_pos h]
  · simp [main, resize_maintaining_aspect, Image.convert, h]

/-- Witness for C8 at a concrete 5×0 image. -/
theorem C8_witness :
    resize_maintaining_aspect trivKernel (sampleImg 5 0) 24 = none ∧
    resize_to_square trivKernel (sampleImg 5 0) 32 = none ∧
    main trivKernel ⟨some (sampleImg 5 0), true⟩ = ⟨["public"], [], false⟩ :=
  C8_zero_height_faults trivKernel (sampleImg 5 0) 24 32 true rfl

/-- Claim C9: `main` creates only the primary `public` directory (before
any work) and never the secondary `src/app` directory; when `src/app` is
absent and everything else is valid, the six primary files are saved in
order and the run then aborts at the first secondary-directory save,
leaving the three secondary outputs unwritten. -/
theorem C9_secondary_dir_missing (L : Lib) (env : Env) (img : Image)
    (hl : env.logo = some img) (hh : 0 < img.height)
    (happ : env.appDirExists = false) :
    (main L env).dirsCreated = ["public"] ∧
    "src/app" ∉ (main L env).dirsCreated ∧
    (main L env).saves.map Prod.fst =
      ["public/logo-24.png", "public/logo-80.png", "public/favicon-16.png",
       "public/favicon-32.png", "public/apple-touch-icon.png",
       "public/favicon.ico"] ∧
    (main L env).ok = false := by
  have hd : (main L env).dirsCreated = ["public"] := by
    simp [main, hl, happ, resize_maintaining_aspect, resize_to_square,
      Image.convert, hh.ne']
  refine ⟨hd, ?_, ?_, ?_⟩
  · rw [hd]
    decide
  · simp [main, hl, happ, resize_maintaining_aspect, resize_to_square,
      Image.convert, hh.ne']
  · simp [main, hl, happ, resize_maintaining_aspect, resize_to_square,
      Image.convert, hh.ne']

/-- Witness for C9 on a concrete 512×256 source with `src/app` absent. -/
theorem C9_witness :
    (main trivKernel ⟨some (sampleImg 512 256), false⟩).dirsCreated = ["public"] ∧
    "src/app" ∉ (main trivKernel ⟨some (sampleImg 512 256), false⟩).dirsCreated ∧
    (main trivKernel ⟨some (sampleImg 512 256), false⟩).saves.map Prod.fst =
      ["public/logo-24.png", "public/logo-80.png", "public/favicon-16.png",
       "public/favicon-32.png", "public/apple-touch-icon.png",
       "public/favicon.ico"] ∧
    (main trivKernel ⟨some (sampleImg 512 256), false⟩).ok = false :=
  C9_secondary_dir_missing trivKernel ⟨some (sampleImg 512 256), false⟩
    (sampleImg 512 256) rfl (by decide) rfl

/-- Claim C10: a positive target does not guarantee a positive output
width: for the 1×1000 source and target 24, the aspect resize's width
`int(24 * 1 / 1000)` is 0, and the height-fit branch of the square fit
derives width 0 as well. -/
theorem C10_zero_width_possible :
    ∃ w h H : Nat, 0 < w ∧ 0 < h ∧ 0 < H ∧
      (resize_maintaining_aspect trivKernel (sampleImg w h) H).map
        Image.width = some 0 ∧
      (sampleImg w h).width ≤ (sampleImg w h).height ∧
      (square_fit (sampleImg w h) H).1 = 0 := by
  refine ⟨1, 1000, 24, ?_, ?_, ?_, ?_, ?_, ?_⟩ <;> decide

end Lyre
